import Mathlib

/-!
Verification of the proposal lifecycle and approval-safeguard engine of the
googleadsanalyzerv2 repository.

The repository ships the Next.js frontend; definitions in the frontend
section below are translated from the TypeScript sources
(src/frontend/src/components/proposals/ImpactReport.tsx, the api client and
the proposals page).  The FastAPI backend that implements the safeguard
evaluator, the proposal state machine, rollback, impact measurement and the
cleanup routine is not part of the shipped sources; those definitions are
modelled from the specification and are marked as such in their doc
comments.

Numeric KPI and budget values are modelled as rationals, timestamps as
integers counting seconds.
-/

namespace GoogleAds

/-! Frontend: ImpactReport.tsx -/

/-- Keys for which a lower value is better, the LOWER_IS_BETTER constant of
ImpactReport.tsx: cost and cpa. -/
def LOWER_IS_BETTER : List String := ["cost", "cpa"]

/-- Idealisation of the JavaScript call value.toFixed(1): render a rational
to one decimal place, rounding to nearest with ties away from zero. -/
def toFixed1 (q : ℚ) : String :=
  let n : ℤ := if q < 0 then -(((-q) * 10 + 1/2 : ℚ).floor) else ((q * 10 + 1/2 : ℚ).floor)
  let a : ℕ := n.natAbs
  (if n < 0 then "-" else "") ++ toString (a / 10) ++ "." ++ toString (a % 10)

/-- Return value of formatChange in ImpactReport.tsx: the rendered text and
the improvement flag (null when the change value is null). -/
structure ChangeDisplay where
  text : String
  isPositive : Option Bool
deriving DecidableEq, Repr

/-- Translation of formatChange in ImpactReport.tsx: a null change renders
as a dash with no flag; otherwise the text is the signed percentage and the
flag requires a strictly negative value for lower-is-better keys and a
strictly positive value for all other keys. -/
def formatChange (key : String) (value : Option ℚ) : ChangeDisplay :=
  match value with
  | none => { text := "-", isPositive := none }
  | some v =>
    let sign : String := if v > 0 then "+" else ""
    let text : String := sign ++ toFixed1 v ++ "%"
    let isLowerBetter : Bool := LOWER_IS_BETTER.contains key
    let isPositive : Bool := if isLowerBetter then decide (v < 0) else decide (v > 0)
    { text := text, isPositive := some isPositive }

/-- Css class chosen by the ChangeIndicator component of ImpactReport.tsx:
gray for a null flag, green for an improvement, red otherwise. -/
def changeIndicatorClass (isPositive : Option Bool) : String :=
  match isPositive with
  | none => "text-gray-400"
  | some true => "text-signal-green"
  | some false => "text-signal-red"

/-- Icon chosen by the ChangeIndicator component of ImpactReport.tsx: none
for a null flag, TrendingUp for an improvement, TrendingDown otherwise. -/
def changeIndicatorIcon (isPositive : Option Bool) : String :=
  match isPositive with
  | none => ""
  | some true => "TrendingUp"
  | some false => "TrendingDown"

/-! Frontend: the api client (fetchAPI) -/

/-- Abstraction of the fetch Response consumed by fetchAPI: the ok flag,
status code and status text, the body text read on the error path (none
when reading the body fails, in which case the catch handler substitutes
the empty string), and the outcome of parsing the body as json. -/
structure HttpResponse (T : Type) where
  ok : Bool
  status : Nat
  statusText : String
  bodyText : Option String
  json : Except String T

/-- Translation of fetchAPI in the api client: when the response is not ok
it throws an error whose message carries the status code, the status text
and, when non-empty, the response body; when the response is ok it returns
the parsed json body. -/
def fetchAPI {T : Type} (res : HttpResponse T) : Except String T :=
  if res.ok then
    res.json
  else
    let errorBody : String := res.bodyText.getD ""
    Except.error ("API Error: " ++ toString res.status ++ " " ++ res.statusText ++
      (if errorBody ≠ "" then " - " ++ errorBody else ""))

/-! Core data model, shared by the frontend page and the modelled backend -/

/-- Proposal categories, the fixed enumeration of the data model (the
FilterCategory union of the frontend types module). -/
inductive Category
  | keyword
  | ad_copy
  | creative
  | manual_creative
  | targeting
  | budget
  | bidding
  | competitive_response
deriving DecidableEq, Repr

/-- Proposal lifecycle statuses (the STATUS_LABELS keys of the frontend
types module and the status enumeration of the data model). -/
inductive ProposalStatus
  | pending
  | approved
  | executed
  | rejected
  | skipped
deriving DecidableEq, Repr

/-- Modelled from the spec: a discrete change operation derived from the
action_steps payload of a proposal (post any edited-values override); the
backend that derives operations is not in the shipped sources.  A budget
operation carries the old and the new absolute value. -/
inductive ChangeOp
  | budget (target : String) (oldValue newValue : ℚ)
  | other (target : String)
deriving DecidableEq, Repr

/-- Modelled from the spec: the process-wide safeguard configuration with
its documented defaults (the backend config module is not in the shipped
sources). -/
structure SafeguardConfig where
  MAX_CHANGES_PER_APPROVAL : ℕ := 10
  MAX_BUDGET_CHANGE_PCT : ℚ := 20
  ROLLBACK_WINDOW_HOURS : ℤ := 24
deriving DecidableEq, Repr

/-- Modelled from the spec: a proposal record with the fields the lifecycle
engine reads (the backend model is not in the shipped sources).  The ops
field is the change set derived from action_steps; executedAt is the time
of the latest execution, in seconds, when one exists. -/
structure Proposal where
  id : ℕ
  category : Category
  status : ProposalStatus
  target_campaign : Option String
  executedAt : Option ℤ
  ops : List ChangeOp
deriving DecidableEq, Repr

/-! Frontend: the proposals page (control gating) -/

/-- Gating of the approve control on the proposals page: rendered only for
a pending proposal whose category is not manual_creative (lines 409 to 428
of the page). -/
def showApproveButton (p : Proposal) : Bool :=
  decide (p.status = ProposalStatus.pending) && decide (p.category ≠ Category.manual_creative)

/-- Gating of the manual-action badge on the proposals page: rendered for a
pending proposal of category manual_creative in place of the approve
control. -/
def showManualActionBadge (p : Proposal) : Bool :=
  decide (p.status = ProposalStatus.pending) && decide (p.category = Category.manual_creative)

/-- Gating of the execute control on the proposals page: rendered only for
an approved proposal whose category is not manual_creative (line 455 of the
page). -/
def showExecuteButton (p : Proposal) : Bool :=
  decide (p.status = ProposalStatus.approved) && decide (p.category ≠ Category.manual_creative)

/-- Gating of the rollback control on the proposals page: rendered for an
executed proposal (line 472 of the page). -/
def showRollbackButton (p : Proposal) : Bool :=
  decide (p.status = ProposalStatus.executed)

/-! Modelled backend: safeguard evaluator -/

/-- Modelled from the spec: the blocking reasons the safeguard evaluator
can report (the backend evaluator is not in the shipped sources); each
reason carries the data the spec says the error identifies. -/
inductive SafeguardError
  | tooManyChanges (count limit : ℕ)
  | budgetChangeExceeded (target : String) (pct limit : ℚ)
  | budgetChangeFromZero (target : String)
  | requiresManualAction
deriving DecidableEq, Repr

/-- Modelled from the spec: the budget rule of the safeguard evaluator.
For a budget operation compute the absolute percentage change; a change
strictly above the limit is a violation naming the operation and the
computed percentage, and from a zero old value any nonzero new value is a
violation.  Non-budget operations never violate this rule. -/
def budgetViolation (cfg : SafeguardConfig) (op : ChangeOp) : Option SafeguardError :=
  match op with
  | ChangeOp.budget target o n =>
    if o = 0 then
      if n ≠ 0 then some (SafeguardError.budgetChangeFromZero target) else none
    else
      let pct : ℚ := abs (n - o) / o * 100
      if pct > cfg.MAX_BUDGET_CHANGE_PCT then
        some (SafeguardError.budgetChangeExceeded target pct cfg.MAX_BUDGET_CHANGE_PCT)
      else none
  | ChangeOp.other _ => none

/-- Decision returned by the safeguard evaluator, the shape of the
SafeguardCheckResponse type of the frontend types module with the error
field carried as a structured list. -/
structure SafeguardDecision where
  canExecute : Bool
  warnings : List String
  errors : List SafeguardError
deriving DecidableEq, Repr

/-- Modelled from the spec: the safeguard evaluator (the backend evaluator
is not in the shipped sources).  Rules applied in order, accumulating
errors: the change-count limit, the budget rule per operation, and the
manual_creative category block; execution is allowed exactly when no error
accumulated.  The spec leaves the content of non-blocking warnings open, so
none are modelled. -/
def checkSafeguards (cfg : SafeguardConfig) (category : Category) (ops : List ChangeOp) :
    SafeguardDecision :=
  let countErrors : List SafeguardError :=
    if ops.length > cfg.MAX_CHANGES_PER_APPROVAL then
      [SafeguardError.tooManyChanges ops.length cfg.MAX_CHANGES_PER_APPROVAL]
    else []
  let budgetErrors : List SafeguardError := ops.filterMap (budgetViolation cfg)
  let manualErrors : List SafeguardError :=
    if category = Category.manual_creative then [SafeguardError.requiresManualAction] else []
  let errors : List SafeguardError := countErrors ++ budgetErrors ++ manualErrors
  { canExecute := decide (errors = []), warnings := [], errors := errors }

/-! Modelled backend: proposal state machine -/

/-- Modelled from the spec: the legal status transition edges of the
proposal state machine (the backend state machine is not in the shipped
sources): pending to approved, rejected or skipped; approved to executed;
executed back to approved by rollback. -/
def allowedTransition : ProposalStatus → ProposalStatus → Bool
  | ProposalStatus.pending, ProposalStatus.approved => true
  | ProposalStatus.pending, ProposalStatus.rejected => true
  | ProposalStatus.pending, ProposalStatus.skipped => true
  | ProposalStatus.approved, ProposalStatus.executed => true
  | ProposalStatus.executed, ProposalStatus.approved => true
  | _, _ => false

/-- Modelled from the spec: the error taxonomy of the lifecycle engine for
transition, safeguard and rollback failures (the backend is not in the
shipped sources); the invalid-transition error names the current and the
requested state. -/
inductive TransitionError
  | invalidTransition (current requested : ProposalStatus)
  | safeguardBlocked (errors : List SafeguardError)
  | rollbackWindowExpired
  | noExecutionRecord
deriving DecidableEq, Repr

/-- Modelled from the spec: a persisted execution record, created exactly
when a change set is applied and the proposal transitions to executed. -/
structure Execution where
  executed_at : ℤ
  actual_changes : List ChangeOp
deriving DecidableEq, Repr

/-- Modelled from the spec: a persisted rollback record. -/
structure RollbackRecord where
  rolled_back_at : ℤ
  reason : Option String
  restored : List ChangeOp
deriving DecidableEq, Repr

/-- Modelled from the spec: the generic status-update operation of the
state machine; a requested edge outside the legal set fails with the
invalid-transition error naming the current and requested states. -/
def updateStatus (p : Proposal) (requested : ProposalStatus) : Except TransitionError Proposal :=
  if allowedTransition p.status requested then
    Except.ok { p with status := requested }
  else
    Except.error (TransitionError.invalidTransition p.status requested)

/-- Stored outcome of a requested status update: on failure the stored
proposal is unchanged and the error is surfaced. -/
def updateStatusApply (p : Proposal) (requested : ProposalStatus) :
    Proposal × Option TransitionError :=
  match updateStatus p requested with
  | Except.ok p2 => (p2, none)
  | Except.error e => (p, some e)

/-- Modelled from the spec: the execute action (the backend dispatcher is
not in the shipped sources).  It fails with an invalid-transition error
unless the proposal is approved, must pass the safeguard evaluator, and on
success transitions the proposal to executed and creates the execution
record. -/
def execute (cfg : SafeguardConfig) (p : Proposal) (now : ℤ) :
    Except TransitionError (Proposal × Execution) :=
  if p.status = ProposalStatus.approved then
    let d := checkSafeguards cfg p.category p.ops
    if d.canExecute then
      Except.ok ({ p with status := ProposalStatus.executed, executedAt := some now },
        { executed_at := now, actual_changes := p.ops })
    else
      Except.error (TransitionError.safeguardBlocked d.errors)
  else
    Except.error (TransitionError.invalidTransition p.status ProposalStatus.executed)

/-- Stored outcome of an execute action: on failure the stored proposal is
unchanged and the error is surfaced. -/
def executeApply (cfg : SafeguardConfig) (p : Proposal) (now : ℤ) :
    Proposal × Option TransitionError :=
  match execute cfg p now with
  | Except.ok (p2, _) => (p2, none)
  | Except.error e => (p, some e)

/-- Result of the approve action: the proposal after the call, the
execution record when the immediate execution succeeded, and the surfaced
execution failure otherwise. -/
structure ApproveResult where
  proposal : Proposal
  execution : Option Execution
  executionError : Option TransitionError
deriving DecidableEq, Repr

/-- Modelled from the spec: the approve action (the backend is not in the
shipped sources).  Only a pending proposal can be approved; an
edited-values override replaces the change set; with a future schedule the
proposal is left approved, otherwise the same call attempts execution and,
when execution fails, the proposal stays approved and the failure is
reported to the caller. -/
def approve (cfg : SafeguardConfig) (p : Proposal) (scheduleAt : Option ℤ)
    (editedOps : Option (List ChangeOp)) (now : ℤ) : Except TransitionError ApproveResult :=
  if p.status = ProposalStatus.pending then
    let effective : Proposal :=
      { p with status := ProposalStatus.approved, ops := editedOps.getD p.ops }
    match scheduleAt with
    | some _ => Except.ok { proposal := effective, execution := none, executionError := none }
    | none =>
      match execute cfg effective now with
      | Except.ok (p2, ex) =>
        Except.ok { proposal := p2, execution := some ex, executionError := none }
      | Except.error e =>
        Except.ok { proposal := effective, execution := none, executionError := some e }
  else
    Except.error (TransitionError.invalidTransition p.status ProposalStatus.approved)

/-- Modelled from the spec: the rollback action (the backend is not in the
shipped sources).  Only an executed proposal with a recorded execution time
can be rolled back; within the configured window, measured in hours from
the recorded execution time, the proposal returns to approved and a
rollback record is written; strictly past the window the action fails with
the distinct window-expired error. -/
def rollback (cfg : SafeguardConfig) (p : Proposal) (now : ℤ) (reason : Option String) :
    Except TransitionError (Proposal × RollbackRecord) :=
  if p.status = ProposalStatus.executed then
    match p.executedAt with
    | none => Except.error TransitionError.noExecutionRecord
    | some t =>
      if now - t ≤ cfg.ROLLBACK_WINDOW_HOURS * 3600 then
        Except.ok ({ p with status := ProposalStatus.approved },
          { rolled_back_at := now, reason := reason, restored := p.ops })
      else
        Except.error TransitionError.rollbackWindowExpired
  else
    Except.error (TransitionError.invalidTransition p.status ProposalStatus.approved)

/-- Stored outcome of a rollback action: on failure the stored proposal is
unchanged and the error is surfaced. -/
def rollbackApply (cfg : SafeguardConfig) (p : Proposal) (now : ℤ) (reason : Option String) :
    Proposal × Option TransitionError :=
  match rollback cfg p now reason with
  | Except.ok (p2, _) => (p2, none)
  | Except.error e => (p, some e)

/-! Modelled backend: impact measurement -/

/-- Snapshot of the eight tracked metrics, the KPISnapshot shape of the
frontend types module; every metric is nullable. -/
structure KPISnapshot where
  cost : Option ℚ
  conversions : Option ℚ
  cpa : Option ℚ
  ctr : Option ℚ
  roas : Option ℚ
  impressions : Option ℚ
  clicks : Option ℚ
  conversion_value : Option ℚ
deriving DecidableEq, Repr

/-- Modelled from the spec: the percentage delta of one metric between the
before and the after snapshot, null when either value is missing or the
before value is zero (division undefined), never an error. -/
def metricChange (b a : Option ℚ) : Option ℚ :=
  match b, a with
  | some bv, some av => if bv = 0 then none else some ((av - bv) / bv * 100)
  | _, _ => none

/-- Modelled from the spec: the per-metric change object of an available
impact report. -/
def snapshotChange (b a : KPISnapshot) : KPISnapshot :=
  { cost := metricChange b.cost a.cost
    conversions := metricChange b.conversions a.conversions
    cpa := metricChange b.cpa a.cpa
    ctr := metricChange b.ctr a.ctr
    roas := metricChange b.roas a.roas
    impressions := metricChange b.impressions a.impressions
    clicks := metricChange b.clicks a.clicks
    conversion_value := metricChange b.conversion_value a.conversion_value }

/-- Modelled from the spec: a snapshot carries usable metrics when at least
one metric is present. -/
def hasUsableMetrics (s : KPISnapshot) : Bool :=
  s.cost.isSome || s.conversions.isSome || s.cpa.isSome || s.ctr.isSome ||
  s.roas.isSome || s.impressions.isSome || s.clicks.isSome || s.conversion_value.isSome

/-- Statuses of an impact report, the status union of the ImpactReport type
of the frontend types module. -/
inductive ImpactStatus
  | no_before
  | pending
  | no_data
  | available
deriving DecidableEq, Repr

/-- Impact report, the ImpactReport shape of the frontend types module. -/
structure ImpactReportData where
  status : ImpactStatus
  before : Option KPISnapshot
  after : Option KPISnapshot
  change : Option KPISnapshot
deriving DecidableEq, Repr

/-- Measurement period following an execution, in days. -/
def MEASUREMENT_PERIOD_DAYS : ℕ := 7

/-- Modelled from the spec: the getImpact operation (the backend is not in
the shipped sources).  No execution or no before snapshot yields no_before;
while the measurement period has not elapsed, or the after snapshot is not
yet captured, the report is pending; with both snapshots present the report
is available with the per-metric change object, unless a snapshot carries
no usable metrics, which yields no_data. -/
def getImpact (executedAt : Option ℤ) (before after : Option KPISnapshot) (now : ℤ) :
    ImpactReportData :=
  match executedAt, before with
  | none, _ => { status := ImpactStatus.no_before, before := none, after := none, change := none }
  | some _, none =>
    { status := ImpactStatus.no_before, before := none, after := none, change := none }
  | some t, some b =>
    if now - t < (MEASUREMENT_PERIOD_DAYS : ℤ) * 86400 then
      { status := ImpactStatus.pending, before := some b, after := none, change := none }
    else
      match after with
      | none =>
        { status := ImpactStatus.pending, before := some b, after := none, change := none }
      | some a =>
        if hasUsableMetrics b && hasUsableMetrics a then
          { status := ImpactStatus.available, before := some b, after := some a,
            change := some (snapshotChange b a) }
        else
          { status := ImpactStatus.no_data, before := some b, after := some a, change := none }

/-! Modelled backend: cleanup of proposals targeting inactive campaigns -/

/-- Campaign statuses of the campaign store (active, paused, ended). -/
inductive CampaignStatus
  | active
  | paused
  | ended
deriving DecidableEq, Repr

/-- Campaign record of the campaign store, reduced to the fields the
cleanup rule reads. -/
structure CampaignRec where
  name : String
  status : CampaignStatus
deriving DecidableEq, Repr

/-- Modelled from the spec: a campaign name is currently active when some
stored campaign has that name and active status; a campaign missing from
the store counts as unknown, hence not active. -/
def campaignActive (campaigns : List CampaignRec) (name : String) : Bool :=
  campaigns.any (fun c => decide (c.name = name ∧ c.status = CampaignStatus.active))

/-- Modelled from the spec: the cleanup rule selects a proposal that is
pending, has a target campaign set, and whose target campaign is not
currently active. -/
def shouldSkip (campaigns : List CampaignRec) (p : Proposal) : Bool :=
  decide (p.status = ProposalStatus.pending) &&
    (match p.target_campaign with
     | none => false
     | some name => !(campaignActive campaigns name))

/-- Modelled from the spec: the cleanup routine (the backend is not in the
shipped sources).  It reports the affected proposals; in dry-run mode the
store is untouched, otherwise every selected proposal is transitioned to
skipped. -/
def cleanupInactiveCampaignProposals (campaigns : List CampaignRec) (dryRun : Bool)
    (ps : List Proposal) : List Proposal × List Proposal :=
  let affected := ps.filter (shouldSkip campaigns)
  let updated :=
    if dryRun then ps
    else ps.map (fun p =>
      if shouldSkip campaigns p then { p with status := ProposalStatus.skipped } else p)
  (affected, updated)

/-! Theorems -/

/-- C10: formatChange flags a change of exactly zero as not an improvement
for every metric key (it requires a strictly negative value for
lower-is-better keys and a strictly positive value otherwise), so a zero
change is rendered with the worsening indicator (red, TrendingDown); a null
change renders as a dash with no flag and the neutral gray style. -/
theorem zero_change_flagged_not_improvement :
    (∀ key, (formatChange key (some 0)).isPositive = some false) ∧
    (∀ key, formatChange key none = { text := "-", isPositive := none }) ∧
    changeIndicatorClass (some false) = "text-signal-red" ∧
    changeIndicatorIcon (some false) = "TrendingDown" ∧
    changeIndicatorClass none = "text-gray-400" ∧
    changeIndicatorIcon none = "" := by
  refine ⟨fun key => ?_, fun key => rfl, rfl, rfl, rfl, rfl⟩
  cases h : LOWER_IS_BETTER.contains key <;> simp [formatChange, h]

/-- C6: the improvement flag follows the sign convention: for the
lower-is-better keys (cost and cpa) a negative change is an improvement,
for the remaining metric keys a positive change is an improvement; on the
documented examples, a cpa drop from 1000 to 800 is a change of minus
twenty percent flagged as improvement, and a conversions rise from 10 to 15
is a change of plus fifty percent flagged as improvement. -/
theorem improvement_flag_sign_convention :
    (∀ key v, key ∈ LOWER_IS_BETTER →
      (formatChange key (some v)).isPositive = some (decide (v < 0))) ∧
    (∀ key v,
      key ∈ (["conversions", "ctr", "roas", "impressions", "clicks", "conversion_value"] :
        List String) →
      (formatChange key (some v)).isPositive = some (decide (v > 0))) ∧
    metricChange (some 1000) (some 800) = some (-20) ∧
    (formatChange "cpa" (some (-20))).isPositive = some true ∧
    metricChange (some 10) (some 15) = some 50 ∧
    (formatChange "conversions" (some 50)).isPositive = some true := by
  refine ⟨fun key v hk => ?_, fun key v hk => ?_, ?_, ?_, ?_, ?_⟩
  · simp only [LOWER_IS_BETTER, List.mem_cons, List.not_mem_nil, or_false] at hk
    rcases hk with rfl | rfl <;> simp [formatChange, LOWER_IS_BETTER]
  · simp only [List.mem_cons, List.not_mem_nil, or_false] at hk
    rcases hk with rfl | rfl | rfl | rfl | rfl | rfl <;> simp [formatChange, LOWER_IS_BETTER]
  · simp [metricChange]
    norm_num
  · simp [formatChange, LOWER_IS_BETTER]
  · simp [metricChange]
    norm_num
  · simp [formatChange, LOWER_IS_BETTER]

/-- Witness for C6 at concrete inputs. -/
theorem improvement_flag_sign_convention_witness :
    (formatChange "cost" (some (-5))).isPositive = some (decide ((-5 : ℚ) < 0)) ∧
    (formatChange "clicks" (some 7)).isPositive = some (decide ((7 : ℚ) > 0)) := by
  exact ⟨improvement_flag_sign_convention.1 "cost" (-5) (by simp [LOWER_IS_BETTER]),
    improvement_flag_sign_convention.2.1 "clicks" 7 (by simp)⟩

/-- C9: fetchAPI propagates every backend failure: on a response that is
not ok it yields an error (never a value) whose message carries the status
code, the status text and, when readable and non-empty, the body; it yields
a value exactly when the response is ok and the body parsed, in which case
it returns the parsed json body. -/
theorem fetchAPI_propagates_failures {T : Type} (res : HttpResponse T) :
    (res.ok = false →
      (∀ t, fetchAPI res ≠ Except.ok t) ∧
      ∃ msg, fetchAPI res = Except.error msg ∧
        (∃ a b, msg = a ++ toString res.status ++ b) ∧
        (∃ a b, msg = a ++ res.statusText ++ b) ∧
        (∀ body, res.bodyText = some body → body ≠ "" → ∃ a, msg = a ++ (" - " ++ body))) ∧
    ((∃ t, fetchAPI res = Except.ok t) ↔ res.ok = true ∧ ∃ t, res.json = Except.ok t) ∧
    (res.ok = true → fetchAPI res = res.json) := by
  refine ⟨fun hok => ?_, ⟨fun ⟨t, ht⟩ => ?_, fun ⟨hok, t, ht⟩ => ?_⟩, fun hok => ?_⟩
  · have hmsg : fetchAPI res = Except.error ("API Error: " ++ toString res.status ++ " " ++
        res.statusText ++
        (if res.bodyText.getD "" ≠ "" then " - " ++ res.bodyText.getD "" else "")) := by
      rw [fetchAPI, hok]
      rfl
    refine ⟨fun t h => by rw [hmsg] at h; exact Except.noConfusion h, _, hmsg, ?_, ?_, ?_⟩
    · exact ⟨"API Error: ", " " ++ (res.statusText ++
        (if res.bodyText.getD "" ≠ "" then " - " ++ res.bodyText.getD "" else "")), by
        simp [String.append_assoc]⟩
    · exact ⟨"API Error: " ++ toString res.status ++ " ",
        (if res.bodyText.getD "" ≠ "" then " - " ++ res.bodyText.getD "" else ""), rfl⟩
    · intro body hb hne
      refine ⟨"API Error: " ++ toString res.status ++ " " ++ res.statusText, ?_⟩
      rw [hb]
      simp [hne]
  · rw [fetchAPI] at ht
    by_cases h : res.ok = true
    · rw [h] at ht
      simp only [if_true] at ht
      exact ⟨h, t, ht⟩
    · simp only [Bool.not_eq_true] at h
      rw [h] at ht
      simp at ht
  · refine ⟨t, ?_⟩
    rw [fetchAPI, hok]
    simpa using ht
  · rw [fetchAPI, hok]
    simp

/-- Example of a failing response used by the C9 witness. -/
def resErrExample : HttpResponse Nat :=
  { ok := false, status := 404, statusText := "Not Found", bodyText := some ("detail"),
    json := Except.error ("unread") }

/-- Witness for C9 at a concrete failing response. -/
theorem fetchAPI_propagates_failures_witness :
    (∀ t, fetchAPI resErrExample ≠ Except.ok t) ∧
    ∃ msg, fetchAPI resErrExample = Except.error msg ∧
      (∃ a b, msg = a ++ toString resErrExample.status ++ b) ∧
      (∃ a b, msg = a ++ resErrExample.statusText ++ b) ∧
      (∀ body, resErrExample.bodyText = some body → body ≠ "" →
        ∃ a, msg = a ++ (" - " ++ body)) :=
  (fetchAPI_propagates_failures resErrExample).1 rfl

/-- The safeguard evaluator always blocks the manual_creative category. -/
lemma checkSafeguards_manual_creative (cfg : SafeguardConfig) (ops : List ChangeOp) :
    (checkSafeguards cfg Category.manual_creative ops).canExecute = false := by
  simp [checkSafeguards, List.append_eq_nil]

/-- The execute action never succeeds on a manual_creative proposal. -/
lemma execute_manual_creative_ne_ok (cfg : SafeguardConfig) (q : Proposal)
    (hq : q.category = Category.manual_creative) (now : ℤ) :
    ∀ r, execute cfg q now ≠ Except.ok r := by
  intro r h
  by_cases hs : q.status = ProposalStatus.approved
  · rw [execute, if_pos hs, hq] at h
    simp [checkSafeguards_manual_creative] at h
  · rw [execute, if_neg hs] at h
    exact Except.noConfusion h

/-- C1: a manual_creative proposal is never on the automated execution
path: the safeguard evaluator returns canExecute false for this category
whatever the configuration and the change set; the execute action never
succeeds on such a proposal; an approve call on it never produces an
execution record; and the page renders neither the approve nor the execute
control for it. -/
theorem manual_creative_never_auto_executable (p : Proposal)
    (h : p.category = Category.manual_creative) :
    (∀ cfg ops, (checkSafeguards cfg Category.manual_creative ops).canExecute = false) ∧
    (∀ cfg now r, execute cfg p now ≠ Except.ok r) ∧
    (∀ cfg sched eops now res, approve cfg p sched eops now = Except.ok res →
      res.execution = none) ∧
    showApproveButton p = false ∧ showExecuteButton p = false := by
  refine ⟨checkSafeguards_manual_creative, fun cfg now => execute_manual_creative_ne_ok cfg p h now,
    fun cfg sched eops now res hres => ?_, by simp [showApproveButton, h],
    by simp [showExecuteButton, h]⟩
  rw [approve] at hres
  by_cases hs : p.status = ProposalStatus.pending
  · rw [if_pos hs] at hres
    set effective : Proposal := { p with status := ProposalStatus.approved, ops := eops.getD p.ops }
      with heff
    cases sched with
    | some s =>
      cases hres
      rfl
    | none =>
      cases he : execute cfg effective now with
      | ok v =>
        exact absurd he (execute_manual_creative_ne_ok cfg effective (by rw [heff]; exact h) now v)
      | error e =>
        simp only [he] at hres
        cases hres
        rfl
  · rw [if_neg hs] at hres
    exact Except.noConfusion hres

/-- Example manual_creative proposal used by the C1 witness. -/
def pManualExample : Proposal :=
  { id := 1, category := Category.manual_creative, status := ProposalStatus.pending,
    target_campaign := none, executedAt := none, ops := [ChangeOp.other ("asset")] }

/-- Witness for C1 at a concrete manual_creative proposal. -/
theorem manual_creative_never_auto_executable_witness :
    (∀ cfg ops, (checkSafeguards cfg Category.manual_creative ops).canExecute = false) ∧
    (∀ cfg now r, execute cfg pManualExample now ≠ Except.ok r) ∧
    (∀ cfg sched eops now res, approve cfg pManualExample sched eops now = Except.ok res →
      res.execution = none) ∧
    showApproveButton pManualExample = false ∧ showExecuteButton pManualExample = false :=
  manual_creative_never_auto_executable pManualExample rfl

/-- C2: for an executed proposal with a recorded execution time t, rollback
succeeds exactly when now minus t is at most the configured window (the
boundary succeeds and returns the proposal to approved); strictly past the
window it fails with the distinct window-expired error, leaving the stored
proposal unchanged. -/
theorem rollback_window_boundary (cfg : SafeguardConfig) (p : Proposal) (now t : ℤ)
    (reason : Option String) (hs : p.status = ProposalStatus.executed)
    (ht : p.executedAt = some t) :
    ((∃ r, rollback cfg p now reason = Except.ok r) ↔
      now - t ≤ cfg.ROLLBACK_WINDOW_HOURS * 3600) ∧
    (now - t ≤ cfg.ROLLBACK_WINDOW_HOURS * 3600 →
      ∃ p2 rb, rollback cfg p now reason = Except.ok (p2, rb) ∧
        p2.status = ProposalStatus.approved ∧ rb.rolled_back_at = now) ∧
    (now - t > cfg.ROLLBACK_WINDOW_HOURS * 3600 →
      rollback cfg p now reason = Except.error TransitionError.rollbackWindowExpired ∧
      rollbackApply cfg p now reason = (p, some TransitionError.rollbackWindowExpired)) := by
  have hroll : rollback cfg p now reason =
      if now - t ≤ cfg.ROLLBACK_WINDOW_HOURS * 3600 then
        Except.ok ({ p with status := ProposalStatus.approved },
          { rolled_back_at := now, reason := reason, restored := p.ops })
      else Except.error TransitionError.rollbackWindowExpired := by
    rw [rollback, if_pos hs, ht]
  refine ⟨⟨fun ⟨r, hr⟩ => ?_, fun hin => ?_⟩, fun hin => ?_, fun hout => ?_⟩
  · rw [hroll] at hr
    by_cases hin : now - t ≤ cfg.ROLLBACK_WINDOW_HOURS * 3600
    · exact hin
    · rw [if_neg hin] at hr
      exact Except.noConfusion hr
  · exact ⟨_, by rw [hroll, if_pos hin]⟩
  · exact ⟨_, _, by rw [hroll, if_pos hin], rfl, rfl⟩
  · have herr : rollback cfg p now reason = Except.error TransitionError.rollbackWindowExpired := by
      rw [hroll, if_neg (not_le.mpr hout)]
    exact ⟨herr, by rw [rollbackApply, herr]⟩

/-- Example executed proposal used by the C2 witness. -/
def pExecutedExample : Proposal :=
  { id := 2, category := Category.budget, status := ProposalStatus.executed,
    target_campaign := some ("brand"), executedAt := some 0,
    ops := [ChangeOp.budget "brand" 10000 11500] }

/-- Witness for C2 at the window boundary and one second past it, with the
default 24-hour window. -/
theorem rollback_window_boundary_witness :
    (∃ r, rollback {} pExecutedExample 86400 none = Except.ok r) ∧
    rollback {} pExecutedExample 86401 none =
      Except.error TransitionError.rollbackWindowExpired ∧
    rollbackApply {} pExecutedExample 86401 none =
      (pExecutedExample, some TransitionError.rollbackWindowExpired) := by
  refine ⟨(rollback_window_boundary {} pExecutedExample 86400 0 none rfl rfl).1.mpr
    (by norm_num), ?_, ?_⟩
  · exact ((rollback_window_boundary {} pExecutedExample 86401 0 none rfl rfl).2.2
      (by norm_num)).1
  · exact ((rollback_window_boundary {} pExecutedExample 86401 0 none rfl rfl).2.2
      (by norm_num)).2

/-- Characterisation of the operations the budget rule rejects. -/
lemma budgetViolation_ne_none_iff (cfg : SafeguardConfig) (op : ChangeOp) :
    budgetViolation cfg op ≠ none ↔
      ∃ target o n, op = ChangeOp.budget target o n ∧
        ((o = 0 ∧ n ≠ 0) ∨ (o ≠ 0 ∧ abs (n - o) / o * 100 > cfg.MAX_BUDGET_CHANGE_PCT)) := by
  cases op with
  | budget target o n =>
    by_cases ho : o = 0
    · subst ho
      by_cases hn : n = 0
      · subst hn
        refine iff_of_false ?_ ?_
        · simp [budgetViolation]
        · rintro ⟨t2, o2, n2, heq, hcond⟩
          injection heq with h1 h2 h3
          subst h2
          subst h3
          rcases hcond with ⟨_, hne⟩ | ⟨hne, _⟩ <;> exact hne rfl
      · refine iff_of_true (by simp [budgetViolation, hn]) ?_
        exact ⟨target, 0, n, rfl, Or.inl ⟨rfl, hn⟩⟩
    · by_cases hp : abs (n - o) / o * 100 > cfg.MAX_BUDGET_CHANGE_PCT
      · refine iff_of_true (by simp [budgetViolation, ho, hp]) ?_
        exact ⟨target, o, n, rfl, Or.inr ⟨ho, hp⟩⟩
      · refine iff_of_false (by simp [budgetViolation, ho, hp]) ?_
        rintro ⟨t2, o2, n2, heq, hcond⟩
        injection heq with h1 h2 h3
        subst h2
        subst h3
        rcases hcond with ⟨h0, _⟩ | ⟨_, hgt⟩
        · exact ho h0
        · exact hp hgt
  | other target => simp [budgetViolation]

/-- With the count rule satisfied and a category other than manual_creative,
the accumulated errors are exactly the budget violations. -/
lemma checkSafeguards_errors_of_count_ok (cfg : SafeguardConfig) (cat : Category)
    (ops : List ChangeOp) (hcat : cat ≠ Category.manual_creative)
    (hcount : ops.length ≤ cfg.MAX_CHANGES_PER_APPROVAL) :
    (checkSafeguards cfg cat ops).errors = ops.filterMap (budgetViolation cfg) ∧
    (checkSafeguards cfg cat ops).canExecute =
      decide (ops.filterMap (budgetViolation cfg) = []) := by
  simp only [checkSafeguards]
  rw [if_neg (by omega), if_neg hcat]
  simp

/-- C3: with the change-count rule satisfied and a category other than
manual_creative, the safeguard evaluator blocks exactly when some budget
operation changes its value by strictly more than the configured
percentage limit, or from a zero old value to a nonzero new value; the
blocking error names the operation and the computed percentage; a change
exactly equal to the limit is not a violation. -/
theorem safeguard_budget_change_rule (cfg : SafeguardConfig) (cat : Category)
    (ops : List ChangeOp) (hcat : cat ≠ Category.manual_creative)
    (hcount : ops.length ≤ cfg.MAX_CHANGES_PER_APPROVAL) :
    ((checkSafeguards cfg cat ops).canExecute = false ↔
      ∃ target o n, ChangeOp.budget target o n ∈ ops ∧
        ((o = 0 ∧ n ≠ 0) ∨ (o ≠ 0 ∧ abs (n - o) / o * 100 > cfg.MAX_BUDGET_CHANGE_PCT))) ∧
    (∀ target o n, ChangeOp.budget target o n ∈ ops → o ≠ 0 →
      abs (n - o) / o * 100 > cfg.MAX_BUDGET_CHANGE_PCT →
      SafeguardError.budgetChangeExceeded target (abs (n - o) / o * 100)
          cfg.MAX_BUDGET_CHANGE_PCT ∈ (checkSafeguards cfg cat ops).errors) ∧
    (∀ target o n, o ≠ 0 → abs (n - o) / o * 100 = cfg.MAX_BUDGET_CHANGE_PCT →
      budgetViolation cfg (ChangeOp.budget target o n) = none) ∧
    (∀ target o n, o = 0 → n ≠ 0 →
      budgetViolation cfg (ChangeOp.budget target o n) =
        some (SafeguardError.budgetChangeFromZero target)) := by
  obtain ⟨herrs, hce⟩ := checkSafeguards_errors_of_count_ok cfg cat ops hcat hcount
  refine ⟨?_, fun target o n hmem ho hp => ?_, fun target o n ho hp => ?_,
    fun target o n ho hn => ?_⟩
  · rw [hce]
    simp only [decide_eq_false_iff_not, ne_eq, List.filterMap_eq_nil_iff]
    push_neg
    constructor
    · rintro ⟨op, hop, hv⟩
      obtain ⟨target, o, n, rfl, hcond⟩ := (budgetViolation_ne_none_iff cfg op).mp hv
      exact ⟨target, o, n, hop, hcond⟩
    · rintro ⟨target, o, n, hmem, hcond⟩
      exact ⟨ChangeOp.budget target o n, hmem,
        (budgetViolation_ne_none_iff cfg _).mpr ⟨target, o, n, rfl, hcond⟩⟩
  · rw [herrs]
    rw [List.mem_filterMap]
    refine ⟨ChangeOp.budget target o n, hmem, ?_⟩
    rw [budgetViolation, if_neg ho]
    simp only
    rw [if_pos hp]
  · rw [budgetViolation, if_neg ho]
    simp only
    rw [if_neg (by rw [hp]; exact lt_irrefl _)]
  · rw [budgetViolation, if_pos ho, if_pos hn]

/-- Witness for C3: with the default limits, a budget change from 10000 to
15000 (fifty percent) is blocked with the error naming the operation and
the percentage, and a change from 10000 to 12000 (exactly the twenty
percent limit) is not a violation. -/
theorem safeguard_budget_change_rule_witness :
    (checkSafeguards {} Category.budget [ChangeOp.budget "brand" 10000 15000]).canExecute =
      false ∧
    SafeguardError.budgetChangeExceeded "brand"
        (abs ((15000 : ℚ) - 10000) / 10000 * 100) ({} : SafeguardConfig).MAX_BUDGET_CHANGE_PCT ∈
      (checkSafeguards {} Category.budget [ChangeOp.budget "brand" 10000 15000]).errors ∧
    budgetViolation {} (ChangeOp.budget "brand" 10000 12000) = none := by
  refine ⟨?_, ?_, ?_⟩
  · exact (safeguard_budget_change_rule {} Category.budget
      [ChangeOp.budget "brand" 10000 15000] (by simp) (by simp)).1.mpr
      ⟨"brand", 10000, 15000, by simp, Or.inr ⟨by norm_num, by norm_num⟩⟩
  · exact (safeguard_budget_change_rule {} Category.budget
      [ChangeOp.budget "brand" 10000 15000] (by simp) (by simp)).2.1 "brand" 10000 15000
      (by simp) (by norm_num) (by norm_num)
  · exact (safeguard_budget_change_rule {} Category.budget
      [ChangeOp.budget "brand" 10000 12000] (by simp) (by simp)).2.2.1 "brand" 10000 12000
      (by norm_num) (by norm_num)

/-- C4: a change set with more operations than the configured limit is
blocked: the decision carries the error identifying the count and the
limit, canExecute is false, the execute action never succeeds on a
proposal holding such a change set, and the stored proposal is unchanged
by the attempt. -/
theorem change_count_limit_blocks (cfg : SafeguardConfig) (cat : Category)
    (ops : List ChangeOp) (h : ops.length > cfg.MAX_CHANGES_PER_APPROVAL) :
    (checkSafeguards cfg cat ops).canExecute = false ∧
    SafeguardError.tooManyChanges ops.length cfg.MAX_CHANGES_PER_APPROVAL ∈
      (checkSafeguards cfg cat ops).errors ∧
    (∀ p : Proposal, p.category = cat → p.ops = ops → ∀ now r,
      execute cfg p now ≠ Except.ok r) ∧
    (∀ p : Proposal, p.category = cat → p.ops = ops → ∀ now,
      executeApply cfg p now = (p, (executeApply cfg p now).2)) := by
  have hce : (checkSafeguards cfg cat ops).canExecute = false := by
    simp only [checkSafeguards]
    rw [if_pos h]
    simp [List.append_eq_nil]
  have hne : ∀ p : Proposal, p.category = cat → p.ops = ops → ∀ now r,
      execute cfg p now ≠ Except.ok r := by
    intro p hp hops now r hr
    by_cases hs : p.status = ProposalStatus.approved
    · rw [execute, if_pos hs, hp, hops] at hr
      simp [hce] at hr
    · rw [execute, if_neg hs] at hr
      exact Except.noConfusion hr
  refine ⟨hce, ?_, hne, fun p hp hops now => ?_⟩
  · simp only [checkSafeguards]
    rw [if_pos h]
    simp
  · rw [executeApply]
    cases he : execute cfg p now with
    | ok v => exact absurd he (hne p hp hops now v)
    | error e => rfl

/-- Change set of eleven operations used by the C4 witness. -/
def elevenOps : List ChangeOp := List.replicate 11 (ChangeOp.other ("kw"))

/-- Example approved proposal holding eleven operations, used by the C4
witness. -/
def pElevenExample : Proposal :=
  { id := 3, category := Category.keyword, status := ProposalStatus.approved,
    target_campaign := none, executedAt := none, ops := elevenOps }

/-- Witness for C4: eleven operations exceed the default limit of ten. -/
theorem change_count_limit_blocks_witness :
    (checkSafeguards {} Category.keyword elevenOps).canExecute = false ∧
    SafeguardError.tooManyChanges elevenOps.length
        ({} : SafeguardConfig).MAX_CHANGES_PER_APPROVAL ∈
      (checkSafeguards {} Category.keyword elevenOps).errors ∧
    (∀ r, execute {} pElevenExample 0 ≠ Except.ok r) ∧
    executeApply {} pElevenExample 0 = (pElevenExample, (executeApply {} pElevenExample 0).2) := by
  have h := change_count_limit_blocks {} Category.keyword elevenOps (by simp [elevenOps])
  exact ⟨h.1, h.2.1, h.2.2.1 pElevenExample rfl rfl 0, h.2.2.2 pElevenExample rfl rfl 0⟩

/-- The status transition edges as listed in the claim. -/
def legalEdges : List (ProposalStatus × ProposalStatus) :=
  [(ProposalStatus.pending, ProposalStatus.approved),
   (ProposalStatus.pending, ProposalStatus.rejected),
   (ProposalStatus.pending, ProposalStatus.skipped),
   (ProposalStatus.approved, ProposalStatus.executed),
   (ProposalStatus.executed, ProposalStatus.approved)]

/-- C5: a requested status change succeeds exactly along the five listed
edges; any other requested edge fails with the invalid-transition error
naming the current and requested states and leaves the stored proposal
unchanged; the approve action on a proposal that is not pending (for
example an executed one) likewise fails with the invalid-transition
error. -/
theorem status_transitions_only_along_edges (p : Proposal) (requested : ProposalStatus) :
    (allowedTransition p.status requested = true ↔ (p.status, requested) ∈ legalEdges) ∧
    ((∃ p2, updateStatus p requested = Except.ok p2) ↔
      allowedTransition p.status requested = true) ∧
    (allowedTransition p.status requested = false →
      updateStatus p requested =
        Except.error (TransitionError.invalidTransition p.status requested) ∧
      updateStatusApply p requested =
        (p, some (TransitionError.invalidTransition p.status requested))) ∧
    (∀ cfg sched eops now, p.status ≠ ProposalStatus.pending →
      approve cfg p sched eops now =
        Except.error (TransitionError.invalidTransition p.status ProposalStatus.approved)) := by
  refine ⟨?_, ⟨fun ⟨p2, hp2⟩ => ?_, fun ha => ?_⟩, fun ha => ?_, fun cfg sched eops now hs => ?_⟩
  · cases hps : p.status <;> cases requested <;> simp [allowedTransition, legalEdges]
  · by_cases ha : allowedTransition p.status requested = true
    · exact ha
    · rw [updateStatus, if_neg (by simp [ha])] at hp2
      exact Except.noConfusion hp2
  · exact ⟨_, by rw [updateStatus, if_pos (by simp [ha])]⟩
  · have hu : updateStatus p requested =
        Except.error (TransitionError.invalidTransition p.status requested) := by
      rw [updateStatus, if_neg (by simp [ha])]
    exact ⟨hu, by rw [updateStatusApply, hu]⟩
  · rw [approve, if_neg hs]

/-- Witness for C5: requesting executed from an executed proposal is not an
edge and fails with the invalid-transition error; the approve action on the
executed proposal fails the same way. -/
theorem status_transitions_only_along_edges_witness :
    (allowedTransition pExecutedExample.status ProposalStatus.executed = true ↔
      (pExecutedExample.status, ProposalStatus.executed) ∈ legalEdges) ∧
    updateStatus pExecutedExample ProposalStatus.executed =
      Except.error (TransitionError.invalidTransition pExecutedExample.status
        ProposalStatus.executed) ∧
    updateStatusApply pExecutedExample ProposalStatus.executed =
      (pExecutedExample, some (TransitionError.invalidTransition pExecutedExample.status
        ProposalStatus.executed)) ∧
    approve {} pExecutedExample none none 0 =
      Except.error (TransitionError.invalidTransition pExecutedExample.status
        ProposalStatus.approved) := by
  have h := status_transitions_only_along_edges pExecutedExample ProposalStatus.executed
  exact ⟨h.1, (h.2.2.1 rfl).1, (h.2.2.1 rfl).2, h.2.2.2 {} none none 0 (by simp [pExecutedExample])⟩

/-- C7: getImpact always yields one of the four statuses; a proposal never
executed yields no_before; with the before snapshot present and the
measurement period not yet elapsed the report is pending; once both
usable snapshots are present the report is available and its change object
is the per-metric percentage delta; the per-metric delta is the documented
quotient, null (never a failure) when the before value is zero. -/
theorem getImpact_contract (executedAt : Option ℤ) (before after : Option KPISnapshot)
    (now : ℤ) :
    ((getImpact executedAt before after now).status = ImpactStatus.no_before ∨
     (getImpact executedAt before after now).status = ImpactStatus.pending ∨
     (getImpact executedAt before after now).status = ImpactStatus.no_data ∨
     (getImpact executedAt before after now).status = ImpactStatus.available) ∧
    (executedAt = none →
      (getImpact executedAt before after now).status = ImpactStatus.no_before) ∧
    (∀ t b, executedAt = some t → before = some b →
      now - t < (MEASUREMENT_PERIOD_DAYS : ℤ) * 86400 →
      (getImpact executedAt before after now).status = ImpactStatus.pending) ∧
    (∀ t b a, executedAt = some t → before = some b → after = some a →
      (MEASUREMENT_PERIOD_DAYS : ℤ) * 86400 ≤ now - t →
      hasUsableMetrics b = true → hasUsableMetrics a = true →
      getImpact executedAt before after now =
        { status := ImpactStatus.available, before := some b, after := some a,
          change := some (snapshotChange b a) }) ∧
    (∀ bv av, metricChange (some bv) (some av) =
      if bv = 0 then none else some ((av - bv) / bv * 100)) ∧
    (∀ a, metricChange (some 0) a = none) := by
  refine ⟨?_, fun he => ?_, fun t b he hb hlt => ?_, fun t b a he hb ha hge hub hua => ?_,
    fun bv av => rfl, fun a => ?_⟩
  · cases (getImpact executedAt before after now).status <;> simp
  · subst he
    cases before <;> rfl
  · subst he
    subst hb
    simp only [getImpact]
    rw [if_pos hlt]
  · subst he
    subst hb
    subst ha
    simp only [getImpact]
    rw [if_neg (not_lt.mpr hge)]
    simp only [hub, hua, Bool.and_self, if_true]
  · cases a with
    | none => rfl
    | some av => simp [metricChange]

/-- Example snapshots used by the C7 witness. -/
def snapBeforeExample : KPISnapshot :=
  { cost := some 50000, conversions := some 10, cpa := some 1000, ctr := some 1,
    roas := some 2, impressions := some 100000, clicks := some 2000,
    conversion_value := some 100000 }

/-- Example after snapshot used by the C7 witness. -/
def snapAfterExample : KPISnapshot :=
  { cost := some 48000, conversions := some 15, cpa := some 800, ctr := some 1,
    roas := some 3, impressions := some 90000, clicks := some 2100,
    conversion_value := some 140000 }

/-- Witness for C7: never executed yields no_before; six days after
execution the report is pending; eight days after execution with both
snapshots the report is available with the computed change object. -/
theorem getImpact_contract_witness :
    (getImpact none none none 0).status = ImpactStatus.no_before ∧
    (getImpact (some 0) (some snapBeforeExample) none 518400).status = ImpactStatus.pending ∧
    getImpact (some 0) (some snapBeforeExample) (some snapAfterExample) 691200 =
      { status := ImpactStatus.available, before := some snapBeforeExample,
        after := some snapAfterExample,
        change := some (snapshotChange snapBeforeExample snapAfterExample) } ∧
    metricChange (some 0) (some 5) = none := by
  refine ⟨(getImpact_contract none none none 0).2.1 rfl, ?_, ?_, ?_⟩
  · exact (getImpact_contract (some 0) (some snapBeforeExample) none 518400).2.2.1 0
      snapBeforeExample rfl rfl (by norm_num [MEASUREMENT_PERIOD_DAYS])
  · exact (getImpact_contract (some 0) (some snapBeforeExample) (some snapAfterExample)
      691200).2.2.2.1 0 snapBeforeExample snapAfterExample rfl rfl rfl
      (by norm_num [MEASUREMENT_PERIOD_DAYS]) rfl rfl
  · exact (getImpact_contract none none none 0).2.2.2.2.2 (some 5)

/-- A proposal put to skipped is never selected again by the cleanup
rule. -/
lemma shouldSkip_after_skip (campaigns : List CampaignRec) (p : Proposal) :
    shouldSkip campaigns { p with status := ProposalStatus.skipped } = false := by
  simp [shouldSkip]

/-- C8: the cleanup routine in dry-run mode reports the affected proposals
and never changes the store; the destructive mode is idempotent: a second
run yields exactly the state of the first, and both modes report the same
affected set on the same input. -/
theorem cleanup_dry_run_and_idempotent (campaigns : List CampaignRec) (ps : List Proposal) :
    (cleanupInactiveCampaignProposals campaigns true ps).2 = ps ∧
    (cleanupInactiveCampaignProposals campaigns true ps).1 =
      (cleanupInactiveCampaignProposals campaigns false ps).1 ∧
    (cleanupInactiveCampaignProposals campaigns false
        ((cleanupInactiveCampaignProposals campaigns false ps).2)).2 =
      (cleanupInactiveCampaignProposals campaigns false ps).2 := by
  refine ⟨rfl, rfl, ?_⟩
  simp only [cleanupInactiveCampaignProposals, if_neg (Bool.false_ne_true), List.map_map]
  refine List.map_congr_left (fun p hp => ?_)
  by_cases hs : shouldSkip campaigns p = true
  · simp only [Function.comp_apply, hs, if_true, shouldSkip_after_skip, Bool.false_eq_true,
      if_false]
  · simp only [Function.comp_apply, Bool.not_eq_true] at hs
    simp only [Function.comp_apply, hs, Bool.false_eq_true, if_false]

end GoogleAds
